import Mathlib

/-!
# Verification of the egui-d3d11 rendering backend

A shallow embedding of the two source files of the `egui-d3d11` crate
(`src/mesh.rs` and `src/app.rs`) together with theorems settling the
specification's claims.

Modelling conventions:

* `f32` coordinates are modelled as exact rationals (`ℚ`); the remap
  arithmetic of `GpuMesh::from_mesh` is division by powers of two and
  subtraction, so the rational model is the exact idealisation of the code.
* Direct3D objects (render-target views, buffers, blend/raster/sampler
  states, shaders, textures) are modelled by `Nat` handles.  Object creation
  calls (`CreateBuffer`, `CreateRenderTargetView`, …) draw a fresh handle
  from a counter, modelling that a newly created COM object is distinct from
  every previously existing one.
* Vertex colors: the Rust source stores `color: v.color.into()`, coercing
  egui's `Color32` into `Rgba` via the egui library, which the spec treats
  as an out-of-scope collaborator.  We model vertex colors already as
  `Rgba` values, under which that coercion is the identity.
* Fallible Win32/D3D calls that the code wraps in `expect!` (a fatal abort)
  are modelled by `Except String`, the error string being the `expect!`
  diagnostic message.
-/

/-- `egui::Pos2`: a 2-D point with `f32` components, modelled over `ℚ`. -/
structure Pos2 where
  x : ℚ
  y : ℚ
  deriving DecidableEq, Repr

/-- `egui::Rgba`: a premultiplied linear RGBA color with `f32` components. -/
structure Rgba where
  r : ℚ
  g : ℚ
  b : ℚ
  a : ℚ
  deriving DecidableEq, Repr

/-- `egui::Rect`: an axis-aligned rectangle given by `min`/`max` corners.
`left()/top()` read `min`, `right()/bottom()` read `max`. -/
structure Rect where
  min : Pos2
  max : Pos2
  deriving DecidableEq, Repr

/-- `egui::epaint::Vertex`: position and UV in pixel space plus a color
(see the color modelling convention in the file header). -/
structure Vertex where
  pos : Pos2
  uv : Pos2
  color : Rgba
  deriving DecidableEq, Repr

/-- `egui::Mesh`: triangle indices, vertices and the texture id the mesh
samples from (`mesh.texture_id`, read by `present` via `get_by_id`). -/
structure Mesh where
  indices : List Nat
  vertices : List Vertex
  texture_id : Nat
  deriving DecidableEq, Repr

/-- `GpuVertex` from `src/mesh.rs`: the vertex layout uploaded to the GPU
(`pos` in normalized device coordinates, `uv`, `color`). -/
structure GpuVertex where
  pos : Pos2
  uv : Pos2
  color : Rgba
  deriving DecidableEq, Repr

/-- `GpuMesh` from `src/mesh.rs`: indices, remapped vertices, the clip
rectangle, and the texture id carried from the raw mesh (read as
`mesh.texture_id` by the draw loop of `present` in `src/app.rs`). -/
structure GpuMesh where
  indices : List Nat
  vertices : List GpuVertex
  clip : Rect
  texture_id : Nat
  deriving DecidableEq, Repr

/-- The coordinate remap applied to each vertex position inside
`GpuMesh::from_mesh`:
`(x, y) ↦ ((x - w/2) / (w/2), (y - h/2) / -(h/2))`. -/
def remapPos (w h : ℚ) (p : Pos2) : Pos2 :=
  ⟨(p.x - w / 2) / (w / 2), (p.y - h / 2) / (-(h / 2))⟩

/-- `GpuMesh::from_mesh` from `src/mesh.rs`: returns `none` when the index
count is zero or not a multiple of three; otherwise remaps every vertex
position to device coordinates, keeps `uv` and `color`, and carries the
scissors rectangle and texture id through. -/
def GpuMesh.from_mesh (screen : ℚ × ℚ) (mesh : Mesh) (scissors : Rect) :
    Option GpuMesh :=
  if mesh.indices.length = 0 ∨ mesh.indices.length % 3 ≠ 0 then
    none
  else
    some
      { indices := mesh.indices
        vertices := mesh.vertices.map fun v =>
          { pos := remapPos screen.1 screen.2 v.pos
            uv := v.uv
            color := v.color }
        clip := scissors
        texture_id := mesh.texture_id }

example :
    GpuMesh.from_mesh (2, 2) ⟨[0, 1], [], 0⟩ ⟨⟨0, 0⟩, ⟨1, 1⟩⟩ = none := by
  decide

example :
    GpuMesh.from_mesh (2, 2)
        ⟨[0, 1, 2], [⟨⟨0, 0⟩, ⟨0, 0⟩, ⟨1, 1, 1, 1⟩⟩], 0⟩ ⟨⟨0, 0⟩, ⟨1, 1⟩⟩ =
      some
        { indices := [0, 1, 2]
          vertices := [⟨⟨-1, 1⟩, ⟨0, 0⟩, ⟨1, 1, 1, 1⟩⟩]
          clip := ⟨⟨0, 0⟩, ⟨1, 1⟩⟩
          texture_id := 0 } := by
  norm_num [GpuMesh.from_mesh, remapPos]

/-- `egui::epaint::Primitive` as matched by `present` in `src/app.rs`:
either a mesh or a paint callback (the callback payload is irrelevant —
the code panics on it). -/
inductive Primitive where
  | mesh (m : Mesh)
  | paintCallback
  deriving DecidableEq, Repr

/-- `egui::ClippedPrimitive` (the elements of `ctx.tessellate(shapes)`):
a primitive together with its clip rectangle. -/
structure ClippedPrimitive where
  primitive : Primitive
  clip_rect : Rect
  deriving DecidableEq, Repr

/-- The `filter_map` over tessellation output inside `present`
(src/app.rs lines 274–285): meshes are converted by `GpuMesh::from_mesh`
(dropping the `none`s), and a paint-callback primitive aborts fatally with
`"Paint callbacks are not yet supported"`. -/
def buildPrimitives (screen : ℚ × ℚ) :
    List ClippedPrimitive → Except String (List GpuMesh)
  | [] => .ok []
  | p :: rest =>
    match p.primitive with
    | .mesh m =>
      match GpuMesh.from_mesh screen m p.clip_rect with
      | some g => (buildPrimitives screen rest).map (g :: ·)
      | none => buildPrimitives screen rest
    | .paintCallback => .error "Paint callbacks are not yet supported"

/-- `D3D11_PRIMITIVE_TOPOLOGY_TRIANGLELIST` (numeric value 4), set by
`IASetPrimitiveTopology` in `present`. -/
def triangleListTopology : Nat := 4

/-- The subset of the D3D11 device-context state that `present` overwrites
(the state the spec's `PipelineSnapshot` must capture and restore).  Each
slot holds an abstract handle, or `none` when nothing is bound. -/
structure PipelineState where
  renderTarget : Option Nat
  blendState : Option Nat
  rasterState : Option Nat
  sampler : Option Nat
  viewport : Option (ℚ × ℚ)
  topology : Option Nat
  inputLayout : Option Nat
  scissor : Option Rect
  psResource : Option Nat
  vertexBuffer : Option Nat
  indexBuffer : Option Nat
  vsShader : Option Nat
  psShader : Option Nat
  deriving DecidableEq, Repr

/-- One `DrawIndexed` call issued by the draw loop of `present`, recording
the arguments and the bindings in effect when it is issued. -/
structure DrawCall where
  indexCount : Nat
  scissor : Rect
  boundTexture : Option Nat
  vertexBuffer : Nat
  indexBuffer : Nat
  deriving DecidableEq, Repr

/-- Result of running the draw loop of `present` over a list of meshes. -/
structure DrawAccum where
  finalState : PipelineState
  counter : Nat
  draws : List DrawCall
  deriving Repr

/-- The per-mesh draw loop of `present` (src/app.rs lines 302–331).  For
each `GpuMesh` in order: create an index buffer and a vertex buffer (two
fresh handles from `counter`), look the texture up by id, set the scissor
rect from the mesh's clip rectangle, bind the texture only when the lookup
succeeded (`if let Some(texture) = texture`), bind the vertex/index buffers
and both shaders, and issue `DrawIndexed` with the mesh's index count. -/
def drawMeshes (textures : Nat → Option Nat) (vsH psH : Nat) :
    Nat → PipelineState → List GpuMesh → DrawAccum
  | counter, st, [] => ⟨st, counter, []⟩
  | counter, st, m :: rest =>
    let idx := counter
    let vtx := counter + 1
    let texture := textures m.texture_id
    let st1 := { st with scissor := some m.clip }
    let st2 :=
      match texture with
      | some t => { st1 with psResource := some t }
      | none => st1
    let st3 := { st2 with
                 vertexBuffer := some vtx
                 indexBuffer := some idx
                 vsShader := some vsH
                 psShader := some psH }
    let call : DrawCall :=
      { indexCount := m.indices.length
        scissor := m.clip
        boundTexture := st3.psResource
        vertexBuffer := vtx
        indexBuffer := idx }
    let acc := drawMeshes textures vsH psH (counter + 2) st3 rest
    ⟨acc.finalState, acc.counter, call :: acc.draws⟩

/-- Everything `present` reads from its surroundings during one call: the
`cfg!(feature = "clear")` toggle, the outputs of `ctx.run` (texture deltas,
clipboard text, shapes), the tessellation of those shapes, the texture
cache lookup (`tex_alloc.get_by_id`), the screen size, and the fields of
`AppData` it uses (`render_view`, `input_layout`, `shaders`). -/
structure PresentEnv where
  clearFeature : Bool
  texturesDelta : List Nat
  copiedText : String
  shapes : List Nat
  tessellated : List ClippedPrimitive
  textures : Nat → Option Nat
  screen : ℚ × ℚ
  renderView : Option Nat
  inputLayout : Nat
  vsShader : Nat
  psShader : Nat

/-- Observable outcome of one `present` call: the call's result (`.error`
models a fatal `panic!`/`expect!` abort), whether `backup.restore` ran,
whether the texture-delta/clipboard side effects ran, whether the
render target was cleared, the issued draw calls, the pipeline state at
exit, and the fresh-handle counter. -/
structure PresentResult where
  result : Except String Unit
  restored : Bool
  processedDeltas : Bool
  wroteClipboard : Bool
  cleared : Bool
  draws : List DrawCall
  finalState : PipelineState
  counter : Nat

/-- `DirectX11App::present` (src/app.rs lines 238–335), after `lock_data`
succeeded.  Mirrors the source's control flow:

1. `backup.save(ctx)` snapshots the pipeline state (`backup.rs` is not part
   of the given sources; *modelled from the spec*: the snapshot captures the
   state `present` overwrites and `restore` reapplies it verbatim).
2. With the `clear` feature, clear the render target if the view is
   non-null (backbuffer contents only — no pipeline-state change).
3. Run the GUI (`ctx.run`); forward non-empty texture deltas and non-empty
   clipboard text (external side effects; `texture.rs` is not part of the
   given sources and per the spec touches only texture resources, not the
   modelled pipeline bindings).
4. If `output.shapes` is empty: `backup.restore(ctx)` and return.
5. Tessellate and convert primitives (`buildPrimitives`); a paint callback
   aborts fatally *before* any pipeline state is touched.
6. Create and bind blend/raster/sampler states (three fresh handles), set
   the viewport, then bind the render target —
   `expect!(this.render_view.clone(), "Failed to set render targets")`
   aborts fatally when the view is null, *after* those bindings and
   *without* restoring.
7. Set topology and input layout, run the draw loop, then
   `backup.restore(ctx)`. -/
def present (env : PresentEnv) (s0 : PipelineState) (counter : Nat) :
    PresentResult :=
  let backup := s0
  let cleared := env.clearFeature && env.renderView.isSome
  let pd := !env.texturesDelta.isEmpty
  let wc := !env.copiedText.isEmpty
  if env.shapes.isEmpty then
    ⟨.ok (), true, pd, wc, cleared, [], backup, counter⟩
  else
    match buildPrimitives env.screen env.tessellated with
    | .error e => ⟨.error e, false, pd, wc, cleared, [], s0, counter⟩
    | .ok meshes =>
      let blendH := counter
      let rasterH := counter + 1
      let samplerH := counter + 2
      let c1 := counter + 3
      let s1 := { s0 with
                  blendState := some blendH
                  rasterState := some rasterH
                  sampler := some samplerH
                  viewport := some env.screen }
      match env.renderView with
      | none =>
        ⟨.error "Failed to set render targets", false, pd, wc, cleared, [],
          s1, c1⟩
      | some rv =>
        let s2 := { s1 with
                    renderTarget := some rv
                    topology := some triangleListTopology
                    inputLayout := some env.inputLayout }
        let acc := drawMeshes env.textures env.vsShader env.psShader c1 s2
          meshes
        ⟨.ok (), true, pd, wc, cleared, acc.draws, backup, acc.counter⟩

/-- The observable steps of `DirectX11App::resize_buffers`, in execution
order. -/
inductive ResizeEvent where
  | releaseView (old : Option Nat)
  | hostCallback
  | getBuffer
  | getDevice
  | createView (new : Nat)
  deriving DecidableEq, Repr

/-- External conditions for one `resize_buffers` call: the `HRESULT` the
host's `original` closure returns, and whether each fallible D3D call
succeeds (a `false` models the corresponding `expect!` aborting fatally). -/
structure ResizeEnv where
  callbackResult : Int
  getBufferOk : Bool
  getDeviceOk : Bool
  createViewOk : Bool
  deriving DecidableEq, Repr

/-- Outcome of one `resize_buffers` call: the returned `HRESULT` (`.error`
models a fatal `expect!` abort), the render-target view stored in
`AppData` at exit, the fresh-handle counter, and the event trace. -/
structure ResizeResult where
  result : Except String Int
  renderView : Option Nat
  counter : Nat
  events : List ResizeEvent
  deriving Repr

/-- `DirectX11App::resize_buffers` (src/app.rs lines 341–370), after
`lock_data` succeeded.  Mirrors the source:
`drop(this.render_view.take())` releases the stored view first, then
`original()` runs, then `GetBuffer`, `GetDevice` and
`CreateRenderTargetView` (a fresh handle) in that order — each wrapped in
`expect!` — and finally the new view is stored and the callback's result
returned unchanged. -/
def resize_buffers (env : ResizeEnv) (oldView : Option Nat) (counter : Nat) :
    ResizeResult :=
  let e1 : List ResizeEvent := [.releaseView oldView]
  let e2 := e1 ++ [.hostCallback]
  if !env.getBufferOk then
    ⟨.error "Failed to get swapchain's backbuffer", none, counter,
      e2 ++ [.getBuffer]⟩
  else if !env.getDeviceOk then
    ⟨.error "Failed to get swapchain's device", none, counter,
      e2 ++ [.getBuffer, .getDevice]⟩
  else if !env.createViewOk then
    ⟨.error "Failed to create render target view", none, counter,
      e2 ++ [.getBuffer, .getDevice]⟩
  else
    let newView := counter
    ⟨.ok env.callbackResult, some newView, counter + 1,
      e2 ++ [.getBuffer, .getDevice, .createView newView]⟩

/-- The fields of `DirectX11App` itself (src/app.rs lines 64–67), i.e. the
`static` the host stores: `data: Mutex<Option<AppData>>` (modelled by
whether the `Option` is `Some`) and `hwnd: OnceCell<HWND>` (modelled by the
optional raw handle value). -/
structure AppSt where
  hwndCell : Option Int
  dataSet : Bool
  deriving DecidableEq, Repr

/-- External conditions for one `init_with_state_context` call: whether
`GetDesc` succeeds, the `OutputWindow` handle it reports, and whether each
subsequent fallible call succeeds (`GetDevice`, `GetBuffer`,
`CreateRenderTargetView`, `CompiledShaders::new` — `shader.rs` is not part
of the given sources; *modelled from the spec*: shader-program creation can
fail fatally — and `CreateInputLayout`). -/
structure InitEnv where
  getDescOk : Bool
  outputWindow : Int
  getDeviceOk : Bool
  getBufferOk : Bool
  createViewOk : Bool
  compileShadersOk : Bool
  createLayoutOk : Bool
  deriving DecidableEq, Repr

/-- `DirectX11App::init_with_state_context` (src/app.rs lines 117–182).
Returns the call's result (`.error` models `panic_msg!`/`expect!`) and the
`DirectX11App` state after the call — mutations performed before a fatal
abort persist, so `hwnd` stays set when a later step aborts.  Mirrors the
source order: double-init check on `hwnd`, `GetDesc`, the
`OutputWindow == -1` validity check, `self.hwnd.set(hwnd)`, `GetDevice`,
`GetBuffer`, `CreateRenderTargetView`, `CompiledShaders::new`,
`CreateInputLayout`, and only then storing `Some(AppData { .. })` into
`self.data`. -/
def init_with_state_context (env : InitEnv) (st : AppSt) :
    Except String Unit × AppSt :=
  if st.hwndCell.isSome then
    (.error "You must call init only once", st)
  else if !env.getDescOk then
    (.error "Failed to get swapchain's descriptor", st)
  else if env.outputWindow = -1 then
    (.error "Invalid output window descriptor", st)
  else
    let st1 := { st with hwndCell := some env.outputWindow }
    if !env.getDeviceOk then
      (.error "Failed to get swapchain's device", st1)
    else if !env.getBufferOk then
      (.error "Failed to get swapchain's backbuffer", st1)
    else if !env.createViewOk then
      (.error "Failed to create new render target view", st1)
    else if !env.compileShadersOk then
      (.error "Failed to compile shaders", st1)
    else if !env.createLayoutOk then
      (.error "Failed to create input layout", st1)
    else
      (.ok (), { st1 with dataSet := true })

/-- `DirectX11App::is_ready` (src/app.rs lines 112–114):
`self.hwnd.get().is_some()`. -/
def is_ready (st : AppSt) : Bool :=
  st.hwndCell.isSome

/-- `DirectX11App::lock_data` (src/app.rs lines 220–224): maps the mutex
guard through `expect!(app.as_mut(), "You need to call init first")`, so it
aborts fatally when `data` is still `None`. -/
def lock_data (st : AppSt) : Except String Unit :=
  if st.dataSet then .ok () else .error "You need to call init first"

/-- The `lock_data` step that begins `DirectX11App::present`
(src/app.rs line 240). -/
def present_lock (st : AppSt) : Except String Unit :=
  lock_data st

/-- The `lock_data` step that begins `DirectX11App::resize_buffers`
(src/app.rs line 347). -/
def resize_buffers_lock (st : AppSt) : Except String Unit :=
  lock_data st

/-- The `lock_data` step that begins `DirectX11App::wnd_proc`
(src/app.rs line 377). -/
def wnd_proc_lock (st : AppSt) : Except String Unit :=
  lock_data st

/-! ## Helper lemmas -/

/-- A primitive whose `from_mesh` conversion yields `none` contributes
nothing to the converted primitive list. -/
lemma buildPrimitives_drop (screen : ℚ × ℚ) (m : Mesh) (clip : Rect)
    (hm : GpuMesh.from_mesh screen m clip = none) (pre post : List ClippedPrimitive) :
    buildPrimitives screen (pre ++ ⟨.mesh m, clip⟩ :: post) =
      buildPrimitives screen (pre ++ post) := by
  induction pre with
  | nil => simp [buildPrimitives, hm]
  | cons p pre ih =>
    simp only [List.cons_append, buildPrimitives]
    cases hp : p.primitive with
    | mesh m' =>
      cases hg : GpuMesh.from_mesh screen m' p.clip_rect <;> simp [ih]
    | paintCallback => rfl

/-- If any tessellated primitive is a paint callback, the conversion pass
aborts with the panic message from src/app.rs line 282. -/
lemma buildPrimitives_callback (screen : ℚ × ℚ) :
    ∀ ps : List ClippedPrimitive, (∃ p ∈ ps, p.primitive = .paintCallback) →
      buildPrimitives screen ps = .error "Paint callbacks are not yet supported" := by
  intro ps hps
  induction ps with
  | nil => simp at hps
  | cons p rest ih =>
    simp only [buildPrimitives]
    rcases hps with ⟨q, hq, hqc⟩
    rcases List.mem_cons.mp hq with rfl | hq
    · rw [hqc]
    · cases hp : p.primitive with
      | mesh m' =>
        have herr := ih ⟨q, hq, hqc⟩
        cases hg : GpuMesh.from_mesh screen m' p.clip_rect <;>
          simp [hg, herr, Except.map]
      | paintCallback => rfl

/-- The draw loop advances the fresh-handle counter by exactly two
(one index buffer, one vertex buffer) for every mesh it draws. -/
lemma drawMeshes_counter (tex : Nat → Option Nat) (vsH psH : Nat) :
    ∀ (ms : List GpuMesh) (c : Nat) (st : PipelineState),
      (drawMeshes tex vsH psH c st ms).counter = c + 2 * ms.length := by
  intro ms
  induction ms with
  | nil => intro c st; simp [drawMeshes]
  | cons m rest ih =>
    intro c st
    simp only [drawMeshes, ih]
    simp [List.length_cons]
    ring

/-- The draw loop issues exactly one `DrawIndexed` per mesh. -/
lemma drawMeshes_draws_length (tex : Nat → Option Nat) (vsH psH : Nat) :
    ∀ (ms : List GpuMesh) (c : Nat) (st : PipelineState),
      (drawMeshes tex vsH psH c st ms).draws.length = ms.length := by
  intro ms
  induction ms with
  | nil => intro c st; simp [drawMeshes]
  | cons m rest ih => intro c st; simp [drawMeshes, ih]

/-- The draw loop decomposes over list concatenation: the suffix runs from
the state and counter the prefix left behind. -/
lemma drawMeshes_append (tex : Nat → Option Nat) (vsH psH : Nat) :
    ∀ (pre suf : List GpuMesh) (c : Nat) (st : PipelineState),
      drawMeshes tex vsH psH c st (pre ++ suf) =
        ⟨(drawMeshes tex vsH psH (drawMeshes tex vsH psH c st pre).counter
            (drawMeshes tex vsH psH c st pre).finalState suf).finalState,
         (drawMeshes tex vsH psH (drawMeshes tex vsH psH c st pre).counter
            (drawMeshes tex vsH psH c st pre).finalState suf).counter,
         (drawMeshes tex vsH psH c st pre).draws ++
           (drawMeshes tex vsH psH (drawMeshes tex vsH psH c st pre).counter
              (drawMeshes tex vsH psH c st pre).finalState suf).draws⟩ := by
  intro pre
  induction pre with
  | nil => intro suf c st; simp [drawMeshes]
  | cons m rest ih => intro suf c st; simp [drawMeshes, ih]

/-! ## Claim theorems -/

/-- C2: for every raw mesh whose index count is a positive multiple of 3
and every screen size `(w, h)`, `from_mesh` returns a `GpuMesh` whose
vertex and index counts equal the input's, whose every vertex position
`(x, y)` is remapped to `((x - w/2)/(w/2), (y - h/2)/(-(h/2)))`, whose UV
and color components are unchanged, and whose clip rectangle is the one
passed in. -/
theorem from_mesh_remaps_vertices (w h : ℚ) (mesh : Mesh) (clip : Rect)
    (h1 : 0 < mesh.indices.length) (h2 : mesh.indices.length % 3 = 0) :
    ∃ g, GpuMesh.from_mesh (w, h) mesh clip = some g ∧
      g.vertices.length = mesh.vertices.length ∧
      g.indices.length = mesh.indices.length ∧
      g.vertices = mesh.vertices.map (fun v =>
        { pos := ⟨(v.pos.x - w / 2) / (w / 2), (v.pos.y - h / 2) / (-(h / 2))⟩
          uv := v.uv
          color := v.color }) ∧
      g.clip = clip := by
  have hcond : ¬(mesh.indices.length = 0 ∨ mesh.indices.length % 3 ≠ 0) := by
    omega
  simp only [GpuMesh.from_mesh, if_neg hcond]
  exact ⟨_, rfl, by simp, rfl, rfl, rfl⟩

/-- A concrete mesh used by witnesses: one triangle, one vertex. -/
def mesh0 : Mesh :=
  ⟨[0, 1, 2], [⟨⟨0, 0⟩, ⟨1, 0⟩, ⟨1, 1, 1, 1⟩⟩], 5⟩

/-- A concrete clip rectangle used by witnesses. -/
def rect0 : Rect := ⟨⟨0, 0⟩, ⟨3, 4⟩⟩

/-- Witness for C2 at `w = h = 2`, `mesh0`, `rect0`. -/
theorem from_mesh_remaps_vertices_witness :
    0 < mesh0.indices.length ∧ mesh0.indices.length % 3 = 0 ∧
      ∃ g, GpuMesh.from_mesh (2, 2) mesh0 rect0 = some g ∧
        g.vertices.length = mesh0.vertices.length ∧
        g.indices.length = mesh0.indices.length ∧
        g.vertices = mesh0.vertices.map (fun v =>
          { pos := ⟨(v.pos.x - 2 / 2) / (2 / 2), (v.pos.y - 2 / 2) / (-(2 / 2))⟩
            uv := v.uv
            color := v.color }) ∧
        g.clip = rect0 :=
  ⟨by decide, by decide,
    from_mesh_remaps_vertices 2 2 mesh0 rect0 (by decide) (by decide)⟩

/-- C3: a raw mesh whose index count is 0 or not divisible by 3 converts to
`none`, contributes nothing to the converted primitive list of `present`
(wherever it sits among the tessellated primitives), and — since the draw
loop allocates exactly two buffers per converted mesh — no GPU buffer
allocation occurs for it. -/
theorem from_mesh_degenerate_drop (screen : ℚ × ℚ) (mesh : Mesh) (clip : Rect)
    (h : mesh.indices.length = 0 ∨ mesh.indices.length % 3 ≠ 0) :
    GpuMesh.from_mesh screen mesh clip = none ∧
    (∀ pre post : List ClippedPrimitive,
      buildPrimitives screen (pre ++ ⟨.mesh mesh, clip⟩ :: post) =
        buildPrimitives screen (pre ++ post)) ∧
    (∀ (tex : Nat → Option Nat) (vsH psH c : Nat) (st : PipelineState)
        (ms : List GpuMesh),
      (drawMeshes tex vsH psH c st ms).counter = c + 2 * ms.length) := by
  have hnone : GpuMesh.from_mesh screen mesh clip = none := by
    simp only [GpuMesh.from_mesh, if_pos h]
  exact ⟨hnone, fun pre post => buildPrimitives_drop screen mesh clip hnone pre post,
    fun tex vsH psH c st ms => drawMeshes_counter tex vsH psH ms c st⟩

/-- A concrete degenerate mesh (index count 2) used by witnesses. -/
def meshDegenerate : Mesh := ⟨[0, 1], [], 5⟩

/-- Witness for C3 at `meshDegenerate`. -/
theorem from_mesh_degenerate_drop_witness :
    (meshDegenerate.indices.length = 0 ∨ meshDegenerate.indices.length % 3 ≠ 0) ∧
      GpuMesh.from_mesh (2, 2) meshDegenerate rect0 = none ∧
      buildPrimitives (2, 2) ([] ++ ⟨.mesh meshDegenerate, rect0⟩ :: []) =
        buildPrimitives (2, 2) ([] ++ []) :=
  ⟨by decide,
    (from_mesh_degenerate_drop (2, 2) meshDegenerate rect0 (by decide)).1,
    (from_mesh_degenerate_drop (2, 2) meshDegenerate rect0 (by decide)).2.1 [] []⟩

/-- C7: for every screen size with `w > 0` and `h > 0` the remap sends
pixel `(0,0)` to device `(-1, 1)`, pixel `(w, h)` to `(1, -1)`, pixel
`(w/2, h/2)` to `(0, 0)`, and every pixel coordinate in `[0,w] × [0,h]` to
a device coordinate in `[-1,1]²`. -/
theorem remapPos_corners_range (w h : ℚ) (hw : 0 < w) (hh : 0 < h) :
    remapPos w h ⟨0, 0⟩ = ⟨-1, 1⟩ ∧
    remapPos w h ⟨w, h⟩ = ⟨1, -1⟩ ∧
    remapPos w h ⟨w / 2, h / 2⟩ = ⟨0, 0⟩ ∧
    ∀ p : Pos2, 0 ≤ p.x → p.x ≤ w → 0 ≤ p.y → p.y ≤ h →
      -1 ≤ (remapPos w h p).x ∧ (remapPos w h p).x ≤ 1 ∧
      -1 ≤ (remapPos w h p).y ∧ (remapPos w h p).y ≤ 1 := by
  have hw2 : (w / 2 : ℚ) ≠ 0 := by positivity
  have hh2 : (h / 2 : ℚ) ≠ 0 := by positivity
  refine ⟨?_, ?_, ?_, ?_⟩
  · simp only [remapPos, Pos2.mk.injEq]
    constructor
    · rw [zero_sub, neg_div, div_self hw2]
    · rw [zero_sub, div_neg, neg_div, neg_neg, div_self hh2]
  · simp only [remapPos, Pos2.mk.injEq]
    constructor
    · rw [show w - w / 2 = w / 2 by ring, div_self hw2]
    · rw [show h - h / 2 = h / 2 by ring, div_neg, div_self hh2]
  · simp only [remapPos, Pos2.mk.injEq]
    constructor <;> rw [sub_self, zero_div]
  · intro p hx0 hxw hy0 hyh
    have hwpos : (0 : ℚ) < w / 2 := by positivity
    have hhpos : (0 : ℚ) < h / 2 := by positivity
    have hyrw : (p.y - h / 2) / (-(h / 2)) = (h / 2 - p.y) / (h / 2) := by
      rw [div_neg, ← neg_div]
      ring_nf
    refine ⟨?_, ?_, ?_, ?_⟩
    · simp only [remapPos]
      rw [le_div_iff₀ hwpos]
      linarith
    · simp only [remapPos]
      rw [div_le_one hwpos]
      linarith
    · simp only [remapPos, hyrw]
      rw [le_div_iff₀ hhpos]
      linarith
    · simp only [remapPos, hyrw]
      rw [div_le_one hhpos]
      linarith

/-- Witness for C7 at `w = h = 2` and pixel `(1, 2)`. -/
theorem remapPos_corners_range_witness :
    (0 : ℚ) < 2 ∧ (0 : ℚ) < 2 ∧
    remapPos 2 2 ⟨0, 0⟩ = ⟨-1, 1⟩ ∧
    remapPos 2 2 ⟨2, 2⟩ = ⟨1, -1⟩ ∧
    remapPos 2 2 ⟨2 / 2, 2 / 2⟩ = ⟨0, 0⟩ ∧
    (-1 ≤ (remapPos 2 2 ⟨1, 2⟩).x ∧ (remapPos 2 2 ⟨1, 2⟩).x ≤ 1 ∧
      -1 ≤ (remapPos 2 2 ⟨1, 2⟩).y ∧ (remapPos 2 2 ⟨1, 2⟩).y ≤ 1) := by
  have h := remapPos_corners_range 2 2 (by norm_num) (by norm_num)
  exact ⟨by norm_num, by norm_num, h.1, h.2.1, h.2.2.1,
    h.2.2.2 ⟨1, 2⟩ (by norm_num) (by norm_num) (by norm_num) (by norm_num)⟩

/-- C5: every `resize_buffers` call whose D3D steps succeed releases the
stored view first, invokes the host callback exactly once, then re-queries
the backbuffer and recreates the view, returns the callback's status
unchanged, and leaves a non-null stored view distinct from the one active
before the call (the hypothesis `hv : v < c` says the old view's handle was
created before the current fresh-handle counter). -/
theorem resize_buffers_protocol (env : ResizeEnv) (v c : Nat)
    (hb : env.getBufferOk = true) (hd : env.getDeviceOk = true)
    (hc : env.createViewOk = true) (hv : v < c) :
    (resize_buffers env (some v) c).result = .ok env.callbackResult ∧
    (resize_buffers env (some v) c).events =
      [.releaseView (some v), .hostCallback, .getBuffer, .getDevice,
        .createView c] ∧
    (resize_buffers env (some v) c).events.count .hostCallback = 1 ∧
    (resize_buffers env (some v) c).renderView = some c ∧
    (resize_buffers env (some v) c).renderView ≠ some v := by
  have hcv : some c ≠ some v := by
    simp only [ne_eq, Option.some.injEq]
    omega
  refine ⟨?_, ?_, ?_, ?_, ?_⟩ <;>
    simp [resize_buffers, hb, hd, hc, hcv, List.count_cons]

/-- Witness for C5 with callback result 7, old view handle 0, counter 1. -/
theorem resize_buffers_protocol_witness :
    (⟨7, true, true, true⟩ : ResizeEnv).getBufferOk = true ∧
    (⟨7, true, true, true⟩ : ResizeEnv).getDeviceOk = true ∧
    (⟨7, true, true, true⟩ : ResizeEnv).createViewOk = true ∧
    0 < 1 ∧
    (resize_buffers ⟨7, true, true, true⟩ (some 0) 1).result = .ok 7 ∧
    (resize_buffers ⟨7, true, true, true⟩ (some 0) 1).renderView = some 1 ∧
    (resize_buffers ⟨7, true, true, true⟩ (some 0) 1).renderView ≠ some 0 := by
  have h := resize_buffers_protocol ⟨7, true, true, true⟩ 0 1 rfl rfl rfl
    (by decide)
  exact ⟨rfl, rfl, rfl, by decide, h.1, h.2.2.2.1, h.2.2.2.2⟩

/-- C6: if `present` tessellates a non-empty shape list and any resulting
primitive is a paint callback, the call fails fatally with the diagnostic
`"Paint callbacks are not yet supported"` (and the backup is not
restored on that abort). -/
theorem present_rejects_paint_callback (env : PresentEnv)
    (s0 : PipelineState) (c : Nat) (hs : env.shapes ≠ [])
    (hp : ∃ p ∈ env.tessellated, p.primitive = .paintCallback) :
    (present env s0 c).result = .error "Paint callbacks are not yet supported" := by
  have hb := buildPrimitives_callback env.screen env.tessellated hp
  have hse : env.shapes.isEmpty = false := by
    simpa [List.isEmpty_iff] using hs
  simp [present, hse, hb]

/-- A pipeline state with nothing bound, used by concrete instances. -/
def emptyPipeline : PipelineState :=
  ⟨none, none, none, none, none, none, none, none, none, none, none, none,
    none⟩

/-- A concrete `present` environment whose tessellation yields a paint
callback. -/
def callbackEnv : PresentEnv :=
  { clearFeature := false
    texturesDelta := []
    copiedText := ""
    shapes := [0]
    tessellated := [⟨.paintCallback, rect0⟩]
    textures := fun _ => none
    screen := (2, 2)
    renderView := some 9
    inputLayout := 11
    vsShader := 12
    psShader := 13 }

/-- Witness for C6 at `callbackEnv`. -/
theorem present_rejects_paint_callback_witness :
    callbackEnv.shapes ≠ [] ∧
    (∃ p ∈ callbackEnv.tessellated, p.primitive = .paintCallback) ∧
    (present callbackEnv emptyPipeline 0).result =
      .error "Paint callbacks are not yet supported" :=
  ⟨by simp [callbackEnv], ⟨⟨.paintCallback, rect0⟩, by simp [callbackEnv], rfl⟩,
    present_rejects_paint_callback callbackEnv emptyPipeline 0
      (by simp [callbackEnv]) ⟨⟨.paintCallback, rect0⟩, by simp [callbackEnv], rfl⟩⟩

/-- C9: initialization fails fatally on an invalid output-window handle
(`OutputWindow == -1`) and on a second initialization; `lock_data` — the
first step of `present`, `resize_buffers` and `wnd_proc` — fails fatally
while no initialization has stored the application data; and a failed
initialization never stores it. -/
theorem init_lock_fatal (env : InitEnv) (st : AppSt) :
    (st.hwndCell = none → env.getDescOk = true → env.outputWindow = -1 →
      (init_with_state_context env st).1 =
        .error "Invalid output window descriptor") ∧
    (st.hwndCell.isSome →
      (init_with_state_context env st).1 =
        .error "You must call init only once") ∧
    (st.dataSet = false →
      present_lock st = .error "You need to call init first" ∧
      resize_buffers_lock st = .error "You need to call init first" ∧
      wnd_proc_lock st = .error "You need to call init first") ∧
    ((init_with_state_context env st).1 ≠ .ok () →
      (init_with_state_context env st).2.dataSet = st.dataSet) := by
  refine ⟨?_, ?_, ?_, ?_⟩
  · intro h0 h1 h2
    simp [init_with_state_context, h0, h1, h2]
  · intro h0
    simp [init_with_state_context, h0]
  · intro h0
    simp [present_lock, resize_buffers_lock, wnd_proc_lock, lock_data, h0]
  · intro h0
    unfold init_with_state_context at *
    split_ifs at * <;> simp_all

/-- Witness for C9: a fresh app with an invalid output window, and a
pre-initialization `lock_data`. -/
theorem init_lock_fatal_witness :
    (init_with_state_context ⟨true, -1, true, true, true, true, true⟩
        ⟨none, false⟩).1 = .error "Invalid output window descriptor" ∧
    present_lock ⟨none, false⟩ = .error "You need to call init first" ∧
    (init_with_state_context ⟨true, -1, true, true, true, true, true⟩
        ⟨some 3, false⟩).1 = .error "You must call init only once" :=
  ⟨(init_lock_fatal ⟨true, -1, true, true, true, true, true⟩ ⟨none, false⟩).1
      rfl rfl rfl,
    ((init_lock_fatal ⟨true, -1, true, true, true, true, true⟩
        ⟨none, false⟩).2.2.1 rfl).1,
    (init_lock_fatal ⟨true, -1, true, true, true, true, true⟩
        ⟨some 3, false⟩).2.1 rfl⟩

/-- C10: if an initialization attempt on a fresh app passes the
output-window validity check but then aborts fatally, `is_ready` returns
`true` afterwards even though no application data was stored, and the
`lock_data` step of `present`, `resize_buffers` and `wnd_proc` still fails
fatally — so `is_ready` does not imply initialization succeeded. -/
theorem init_partial_ready_not_initialized (env : InitEnv) (st : AppSt)
    (h0 : st.hwndCell = none) (h1 : st.dataSet = false)
    (h2 : env.getDescOk = true) (h3 : env.outputWindow ≠ -1)
    (hfail : (init_with_state_context env st).1 ≠ .ok ()) :
    is_ready (init_with_state_context env st).2 = true ∧
    (init_with_state_context env st).2.dataSet = false ∧
    present_lock (init_with_state_context env st).2 =
      .error "You need to call init first" ∧
    resize_buffers_lock (init_with_state_context env st).2 =
      .error "You need to call init first" ∧
    wnd_proc_lock (init_with_state_context env st).2 =
      .error "You need to call init first" := by
  unfold init_with_state_context at *
  simp only [h0, h2, h3] at *
  simp [present_lock, resize_buffers_lock, wnd_proc_lock, lock_data,
    is_ready] at *
  split_ifs at * <;> simp_all

/-- Witness for C10: a fresh app whose `GetDevice` fails after the
output-window check passed. -/
theorem init_partial_ready_not_initialized_witness :
    (⟨none, false⟩ : AppSt).hwndCell = none ∧
    (⟨none, false⟩ : AppSt).dataSet = false ∧
    (⟨true, 42, false, true, true, true, true⟩ : InitEnv).getDescOk = true ∧
    (⟨true, 42, false, true, true, true, true⟩ : InitEnv).outputWindow ≠ -1 ∧
    (init_with_state_context ⟨true, 42, false, true, true, true, true⟩
        ⟨none, false⟩).1 ≠ .ok () ∧
    is_ready (init_with_state_context ⟨true, 42, false, true, true, true, true⟩
        ⟨none, false⟩).2 = true ∧
    present_lock (init_with_state_context
        ⟨true, 42, false, true, true, true, true⟩ ⟨none, false⟩).2 =
      .error "You need to call init first" := by
  have hfail : (init_with_state_context
      ⟨true, 42, false, true, true, true, true⟩ ⟨none, false⟩).1 ≠ .ok () := by
    simp [init_with_state_context]
  have h := init_partial_ready_not_initialized
    ⟨true, 42, false, true, true, true, true⟩ ⟨none, false⟩ rfl rfl rfl
    (by decide) hfail
  exact ⟨rfl, rfl, rfl, by decide, hfail, h.1, h.2.2.1⟩

/-- C1 (amended): the pipeline snapshot captured at entry is restored on
every *successful* exit of `present` — in particular the empty-shapes
early exit performs zero draw calls and returns with pipeline state equal
to the entry snapshot — but fatal aborts are not covered (see
`present_restore_skipped_cex`). -/
theorem present_restores_on_success (env : PresentEnv) (s0 : PipelineState)
    (c : Nat) :
    ((present env s0 c).result = .ok () →
      (present env s0 c).restored = true ∧
      (present env s0 c).finalState = s0) ∧
    (env.shapes = [] →
      (present env s0 c).result = .ok () ∧
      (present env s0 c).draws = [] ∧
      (present env s0 c).finalState = s0) := by
  by_cases hs : env.shapes.isEmpty
  · constructor
    · intro _
      simp [present, hs]
    · intro _
      simp [present, hs]
  · constructor
    · intro hok
      cases hbp : buildPrimitives env.screen env.tessellated with
      | error e =>
        exfalso
        simp [present, hs, hbp] at hok
      | ok ms =>
        cases hrv : env.renderView with
        | none =>
          exfalso
          simp [present, hs, hbp, hrv] at hok
        | some rv =>
          simp [present, hs, hbp, hrv]
    · intro h
      exfalso
      rw [h] at hs
      simp at hs

/-- A valid one-triangle mesh with no vertices (conversion succeeds, no
coordinate arithmetic needed). -/
def meshTri : Mesh := ⟨[0, 1, 2], [], 5⟩

/-- `meshTri` after `from_mesh` (what `buildPrimitives` yields for it). -/
def gTri : GpuMesh := ⟨[0, 1, 2], [], rect0, 5⟩

/-- A concrete `present` environment with a null render-target view and a
non-empty shape list (one valid mesh). -/
def nullViewEnv : PresentEnv :=
  { clearFeature := false
    texturesDelta := []
    copiedText := ""
    shapes := [0]
    tessellated := [⟨.mesh meshTri, rect0⟩]
    textures := fun _ => none
    screen := (2, 2)
    renderView := none
    inputLayout := 11
    vsShader := 12
    psShader := 13 }

/-- Counterexample to C1 as stated: at `nullViewEnv` the call aborts
fatally after overwriting blend/raster/sampler/viewport state, the backup
is never restored, and the pipeline state at exit differs from the entry
snapshot — a fatal exit path skips restoration. -/
theorem present_restore_skipped_cex :
    (present nullViewEnv emptyPipeline 0).restored = false ∧
    (present nullViewEnv emptyPipeline 0).finalState ≠ emptyPipeline ∧
    (present nullViewEnv emptyPipeline 0).result ≠ .ok () := by
  refine ⟨?_, ?_, ?_⟩ <;>
    simp [present, nullViewEnv, emptyPipeline, buildPrimitives,
      GpuMesh.from_mesh, meshTri, Except.map]

/-- An environment for an empty frame (no shapes). -/
def emptyFrameEnv : PresentEnv :=
  { clearFeature := false
    texturesDelta := []
    copiedText := ""
    shapes := []
    tessellated := []
    textures := fun _ => none
    screen := (2, 2)
    renderView := some 9
    inputLayout := 11
    vsShader := 12
    psShader := 13 }

/-- Witness for C1 (amended) on the empty-shapes early exit. -/
theorem present_restores_on_success_witness :
    (present emptyFrameEnv emptyPipeline 0).result = .ok () ∧
    (present emptyFrameEnv emptyPipeline 0).restored = true ∧
    (present emptyFrameEnv emptyPipeline 0).draws = [] ∧
    (present emptyFrameEnv emptyPipeline 0).finalState = emptyPipeline := by
  have h := present_restores_on_success emptyFrameEnv emptyPipeline 0
  have h2 := h.2 rfl
  exact ⟨h2.1, (h.1 h2.1).1, h2.2.1, h2.2.2⟩

/-- C4 (amended): when `present` runs with a null render-target view, the
optional clear is skipped; the call returns without failing only when the
output shapes are empty — when there are shapes to draw (and tessellation
produced meshes), it aborts fatally with `"Failed to set render targets"`
rather than skipping the frame. -/
theorem present_null_view (env : PresentEnv) (s0 : PipelineState) (c : Nat)
    (hrv : env.renderView = none) :
    (present env s0 c).cleared = false ∧
    (env.shapes = [] → (present env s0 c).result = .ok ()) ∧
    (∀ ms, env.shapes ≠ [] →
      buildPrimitives env.screen env.tessellated = .ok ms →
      (present env s0 c).result = .error "Failed to set render targets") := by
  by_cases hs : env.shapes.isEmpty
  · refine ⟨?_, ?_, ?_⟩
    · simp [present, hs, hrv]
    · intro _
      simp [present, hs]
    · intro ms hne _
      exact absurd (List.isEmpty_iff.mp hs) hne
  · refine ⟨?_, ?_, ?_⟩
    · cases hbp : buildPrimitives env.screen env.tessellated with
      | error e => simp [present, hs, hrv, hbp]
      | ok ms => simp [present, hs, hrv, hbp]
    · intro h
      exfalso
      rw [h] at hs
      simp at hs
    · intro ms _ hbp
      simp [present, hs, hrv, hbp]

/-- Counterexample to C4 as stated: at `nullViewEnv` (null view, one valid
mesh to draw) the call does not return cleanly — it fails fatally with
`"Failed to set render targets"`. -/
theorem present_null_view_cex :
    nullViewEnv.renderView = none ∧
    nullViewEnv.shapes ≠ [] ∧
    (present nullViewEnv emptyPipeline 0).result =
      .error "Failed to set render targets" := by
  refine ⟨rfl, ?_, ?_⟩
  · simp [nullViewEnv]
  · simp [present, nullViewEnv, emptyPipeline, buildPrimitives,
      GpuMesh.from_mesh, meshTri, Except.map]

/-- Witness for C4 (amended) at `nullViewEnv`. -/
theorem present_null_view_witness :
    nullViewEnv.renderView = none ∧
    (present nullViewEnv emptyPipeline 0).cleared = false ∧
    (present nullViewEnv emptyPipeline 0).result =
      .error "Failed to set render targets" := by
  have h := present_null_view nullViewEnv emptyPipeline 0 rfl
  refine ⟨rfl, h.1, h.2.2 [gTri] (by simp [nullViewEnv]) ?_⟩
  simp [nullViewEnv, buildPrimitives, GpuMesh.from_mesh, meshTri, gTri,
    rect0, Except.map]

/-- C8 (amended): when a mesh's texture id has no entry in the texture
cache, the absence is tolerated and its indexed draw call is still issued —
but no texture bind is performed for that mesh, so it draws with whatever
was bound in the pixel-shader resource slot before it (possibly a previous
mesh's texture), untextured only when that slot was empty. -/
theorem drawMeshes_missing_texture (tex : Nat → Option Nat)
    (vsH psH c : Nat) (st : PipelineState) (pre : List GpuMesh)
    (m : GpuMesh) (post : List GpuMesh) (hm : tex m.texture_id = none) :
    (drawMeshes tex vsH psH c st (pre ++ m :: post)).draws[pre.length]? =
      some { indexCount := m.indices.length
             scissor := m.clip
             boundTexture :=
               (drawMeshes tex vsH psH c st pre).finalState.psResource
             vertexBuffer := (drawMeshes tex vsH psH c st pre).counter + 1
             indexBuffer := (drawMeshes tex vsH psH c st pre).counter } := by
  rw [drawMeshes_append]
  have hlen : (drawMeshes tex vsH psH c st pre).draws.length = pre.length :=
    drawMeshes_draws_length tex vsH psH pre c st
  simp only []
  rw [List.getElem?_append_right (le_of_eq hlen)]
  rw [hlen, Nat.sub_self]
  simp [drawMeshes, hm]

/-- Witness for C8 (amended): a single mesh whose texture lookup fails is
still drawn, with the (empty) previous binding left in place. -/
theorem drawMeshes_missing_texture_witness :
    (fun _ : Nat => (none : Option Nat)) gTri.texture_id = none ∧
    (drawMeshes (fun _ => none) 12 13 0 emptyPipeline
        ([] ++ gTri :: [])).draws[0]? =
      some { indexCount := 3
             scissor := rect0
             boundTexture := none
             vertexBuffer := 1
             indexBuffer := 0 } := by
  have h := drawMeshes_missing_texture (fun _ => none) 12 13 0 emptyPipeline
    [] gTri [] rfl
  refine ⟨rfl, ?_⟩
  simp only [drawMeshes, emptyPipeline, gTri] at h
  exact h

/-- A mesh sampling texture id 1 (present in the cache below). -/
def meshTexA : Mesh := ⟨[0, 1, 2], [], 1⟩

/-- A mesh sampling texture id 2 (absent from the cache below). -/
def meshTexB : Mesh := ⟨[0, 1, 2], [], 2⟩

/-- A concrete `present` environment where the first mesh's texture (id 1)
is in the cache but the second mesh's (id 2) is not. -/
def missingTexEnv : PresentEnv :=
  { clearFeature := false
    texturesDelta := []
    copiedText := ""
    shapes := [0]
    tessellated := [⟨.mesh meshTexA, rect0⟩, ⟨.mesh meshTexB, rect0⟩]
    textures := fun i => if i = 1 then some 7 else none
    screen := (2, 2)
    renderView := some 9
    inputLayout := 11
    vsShader := 12
    psShader := 13 }

/-- Counterexample to C8 as stated: at `missingTexEnv` the second mesh's
texture lookup fails (`textures 2 = none`), its draw call is issued, but it
draws with the *previous* mesh's texture (handle 7) still bound — not with
no texture bound. -/
theorem present_missing_texture_cex :
    meshTexB.texture_id = 2 ∧
    missingTexEnv.textures 2 = none ∧
    ((present missingTexEnv emptyPipeline 0).draws.map (·.boundTexture)) =
      [some 7, some 7] := by
  refine ⟨rfl, rfl, ?_⟩
  simp [present, missingTexEnv, emptyPipeline, buildPrimitives,
    GpuMesh.from_mesh, meshTexA, meshTexB, drawMeshes, Except.map]
